import Mathlib

/-!
Verification of the sticky-message reconciliation loop (src/main.py).

The embedding mirrors the Python class `Looper`:
* `LooperState` holds the `channels` configuration (channel id → sticky text)
  and the mutable `message_ids` mapping (channel id → optional message id),
  both as ordered association lists, matching Python dict semantics.
* One reconciliation of a channel consults an `Env` oracle for the outcomes
  of the HTTP calls it makes (the GET "messages after" query, the DELETE, the
  POST), each of which may also raise a timeout or connection error, and for
  whether the synchronous JSON save succeeds.
* Every operation returns the possibly-propagating exception, the state at
  that moment (Python mutates `self.message_ids` in place, so mutations made
  before an exception survive), and a trace of externally visible events:
  HTTP calls issued, sleeps, state mutations and state saves.
-/

namespace Sticky

/-- Channel and message identifiers (opaque; Discord snowflakes). -/
abbrev Id := Nat

/-- Mapping from channel id to optional last-known sticky message id,
as an ordered association list (a Python dict). -/
abbrev IdMap := List (Id × Option Id)

/-- Outcome of one HTTP request: a response, or a raised
requests.exceptions.Timeout / requests.exceptions.ConnectionError. -/
inductive HttpOutcome (α : Type) where
  | ok (response : α)
  | timeout
  | connError
  deriving DecidableEq

/-- Response to the GET "messages after" query: status code and decoded
body (the list of message ids newer than the cursor). -/
structure GetResult where
  status : Nat
  messages : List Id
  deriving DecidableEq

/-- Response to the POST creating a message: status code and the "id"
field of the decoded body. -/
structure PostResult where
  status : Nat
  id : Id
  deriving DecidableEq

/-- Oracle for the environment's behaviour during one reconciliation of one
channel: outcome of the GET query, of the DELETE, of the POST, and whether
`update_json` (the state save) raises. -/
structure Env where
  get : HttpOutcome GetResult
  del : HttpOutcome Nat
  post : HttpOutcome PostResult
  saveFail : Bool
  deriving DecidableEq

/-- Exceptions that can propagate out of `update`. -/
inductive Exn where
  | timeout
  | connError
  | keyError
  | saveError
  deriving DecidableEq

/-- Externally visible events, in order of occurrence: HTTP calls issued,
sleeps, in-place mutations of `message_ids`, and saves of the full mapping
to the JSON file. -/
inductive Event where
  | getCall (channel : Id) (after : Id)
  | deleteCall (channel : Id) (mid : Id)
  | postCall (channel : Id) (content : String)
  | mutate (m : IdMap)
  | save (m : IdMap)
  | sleepEv
  deriving DecidableEq

/-- The state of a `Looper`: the immutable channel → sticky-text
configuration and the mutable channel → message-id mapping. -/
structure LooperState where
  channels : List (Id × String)
  message_ids : IdMap
  deriving DecidableEq

/-- Dictionary lookup on an association list (Python `d[k]` succeeding,
`none` meaning KeyError). -/
def lookup {α : Type} : List (Id × α) → Id → Option α
  | [], _ => none
  | (k, v) :: rest, c => if k = c then some v else lookup rest c

/-- Dictionary assignment `d[k] = v`: replaces the value at the first
matching key, appends when the key is absent (Python dict semantics). -/
def setKey {α : Type} : List (Id × α) → Id → α → List (Id × α)
  | [], k, v => [(k, v)]
  | (k', v') :: rest, k, v =>
    if k' = k then (k, v) :: rest else (k', v') :: setKey rest k v

/-- Result of `valid`: the propagating exception if any, the returned
boolean (meaningful only when no exception), the state afterwards, and the
trace of events. -/
structure VResult where
  err : Option Exn
  ret : Bool
  st : LooperState
  trace : List Event
  deriving DecidableEq

/-- Result of `update` / `try_update`: exception, state, trace. -/
structure UResult where
  err : Option Exn
  st : LooperState
  trace : List Event
  deriving DecidableEq

/-- Embedding of `Looper.valid` (src/main.py:76-113): look up the channel's
last-known message id (KeyError when the channel is untracked); `None` means
no sticky, return False. Otherwise GET the messages after it; a non-200
response or an empty body means the sticky counts as valid. Otherwise sleep,
DELETE the known message; status 204 or 404 is success: clear the id, save,
and return False (not valid, triggering a repost); any other status returns
True (leave the id, no repost). -/
def valid (st : LooperState) (env : Env) (c : Id) : VResult :=
  match lookup st.message_ids c with
  | none => ⟨some Exn.keyError, false, st, []⟩
  | some none => ⟨none, false, st, []⟩
  | some (some mid) =>
    match env.get with
    | HttpOutcome.timeout => ⟨some Exn.timeout, false, st, [Event.getCall c mid]⟩
    | HttpOutcome.connError => ⟨some Exn.connError, false, st, [Event.getCall c mid]⟩
    | HttpOutcome.ok g =>
      if g.status ≠ 200 ∨ g.messages = [] then
        ⟨none, true, st, [Event.getCall c mid]⟩
      else
        match env.del with
        | HttpOutcome.timeout =>
          ⟨some Exn.timeout, false, st,
            [Event.getCall c mid, Event.sleepEv, Event.deleteCall c mid]⟩
        | HttpOutcome.connError =>
          ⟨some Exn.connError, false, st,
            [Event.getCall c mid, Event.sleepEv, Event.deleteCall c mid]⟩
        | HttpOutcome.ok d =>
          if d = 204 ∨ d = 404 then
            let m := setKey st.message_ids c none
            if env.saveFail then
              ⟨some Exn.saveError, false, ⟨st.channels, m⟩,
                [Event.getCall c mid, Event.sleepEv, Event.deleteCall c mid,
                 Event.mutate m]⟩
            else
              ⟨none, false, ⟨st.channels, m⟩,
                [Event.getCall c mid, Event.sleepEv, Event.deleteCall c mid,
                 Event.mutate m, Event.save m]⟩
          else
            ⟨none, true, st,
              [Event.getCall c mid, Event.sleepEv, Event.deleteCall c mid]⟩

/-- Embedding of `Looper.update` (src/main.py:53-74): if `valid` returns
True, done. Otherwise look up the sticky text (KeyError when the channel is
not configured) and POST it; on any status other than 200, done; on 200,
record the id from the response body and save. -/
def update (st : LooperState) (env : Env) (c : Id) : UResult :=
  match valid st env c with
  | ⟨some e, _, st', tr⟩ => ⟨some e, st', tr⟩
  | ⟨none, true, st', tr⟩ => ⟨none, st', tr⟩
  | ⟨none, false, st', tr⟩ =>
    match lookup st'.channels c with
    | none => ⟨some Exn.keyError, st', tr⟩
    | some content =>
      match env.post with
      | HttpOutcome.timeout =>
        ⟨some Exn.timeout, st', tr ++ [Event.postCall c content]⟩
      | HttpOutcome.connError =>
        ⟨some Exn.connError, st', tr ++ [Event.postCall c content]⟩
      | HttpOutcome.ok p =>
        if p.status ≠ 200 then
          ⟨none, st', tr ++ [Event.postCall c content]⟩
        else
          let m := setKey st'.message_ids c (some p.id)
          if env.saveFail then
            ⟨some Exn.saveError, ⟨st'.channels, m⟩,
              tr ++ [Event.postCall c content, Event.mutate m]⟩
          else
            ⟨none, ⟨st'.channels, m⟩,
              tr ++ [Event.postCall c content, Event.mutate m, Event.save m]⟩

/-- Embedding of `Looper.try_update` (src/main.py:44-51): call `update`,
catching (and logging) only requests.exceptions.Timeout and
requests.exceptions.ConnectionError; every other exception propagates. -/
def try_update (st : LooperState) (env : Env) (c : Id) : UResult :=
  match update st env c with
  | ⟨some Exn.timeout, st', tr⟩ => ⟨none, st', tr⟩
  | ⟨some Exn.connError, st', tr⟩ => ⟨none, st', tr⟩
  | r => r

/-- The body of `Looper.loop`'s for-statement: reconcile the listed channels
in order, one `Env` per channel; an uncaught exception aborts the iteration
(and with it the process). -/
def runChannels (envs : Id → Env) : LooperState → List Id → UResult
  | st, [] => ⟨none, st, []⟩
  | st, c :: cs =>
    match try_update st (envs c) c with
    | ⟨some e, st', tr⟩ => ⟨some e, st', tr⟩
    | ⟨none, st', tr⟩ =>
      let rest := runChannels envs st' cs
      ⟨rest.err, rest.st, tr ++ rest.trace⟩

/-- Embedding of `Looper.loop` (src/main.py:36-42): one cycle over the keys
of `message_ids` in order, then the fixed sleep. -/
def loop (st : LooperState) (envs : Id → Env) : UResult :=
  match runChannels envs st (st.message_ids.map Prod.fst) with
  | ⟨some e, st', tr⟩ => ⟨some e, st', tr⟩
  | ⟨none, st', tr⟩ => ⟨none, st', tr ++ [Event.sleepEv]⟩

/-- Embedding of `Looper.__init__` (src/main.py:15-28): `stored = some m`
models a readable state file with contents `m`; `stored = none` models
FileNotFoundError, in which case every configured channel starts with no
message id. -/
def looperInit (channels : List (Id × String)) (stored : Option IdMap) :
    LooperState :=
  { channels := channels,
    message_ids :=
      match stored with
      | some m => m
      | none => channels.map (fun p => (p.1, (none : Option Id))) }

/-- Is this event an issued POST (message creation)? -/
def isPostCall : Event → Bool
  | Event.postCall _ _ => true
  | _ => false

/-- Is this event an issued DELETE? -/
def isDeleteCall : Event → Bool
  | Event.deleteCall _ _ => true
  | _ => false

/-- Is this event an issued GET query? -/
def isGetCall : Event → Bool
  | Event.getCall _ _ => true
  | _ => false

/-- Number of events satisfying a predicate in a trace. -/
def countP (p : Event → Bool) (tr : List Event) : Nat :=
  (tr.filter p).length

/-- Every in-place mutation of the mapping is immediately followed by a save
of exactly the mutated mapping. A trailing unsaved mutation fails this
check. -/
def savedImmediately : List Event → Bool
  | [] => true
  | Event.mutate m :: Event.save m' :: rest =>
    decide (m = m') && savedImmediately rest
  | Event.mutate _ :: _ => false
  | _ :: rest => savedImmediately rest

theorem lookup_setKey_self {α : Type} (l : List (Id × α)) (k : Id) (v : α) :
    lookup (setKey l k v) k = some v := by
  induction l with
  | nil => simp [setKey, lookup]
  | cons p rest ih =>
    obtain ⟨k', v'⟩ := p
    by_cases h : k' = k
    · simp [setKey, h, lookup]
    · simp [setKey, h, lookup, ih]

theorem lookup_setKey_ne {α : Type} (l : List (Id × α)) (k k' : Id) (v : α)
    (h : k' ≠ k) : lookup (setKey l k v) k' = lookup l k' := by
  have h2 : ¬ k = k' := fun hh => h hh.symm
  induction l with
  | nil => simp [setKey, lookup, h2]
  | cons p rest ih =>
    obtain ⟨k0, v0⟩ := p
    by_cases hk : k0 = k
    · subst hk
      simp [setKey, lookup, h2]
    · simp [setKey, hk, lookup, ih]

theorem map_fst_setKey {α : Type} (l : List (Id × α)) (k : Id) (v w : α)
    (h : lookup l k = some w) :
    (setKey l k v).map Prod.fst = l.map Prod.fst := by
  induction l with
  | nil => simp [lookup] at h
  | cons p rest ih =>
    obtain ⟨k0, v0⟩ := p
    by_cases hk : k0 = k
    · subst hk
      simp [setKey]
    · simp [lookup, hk] at h
      simp [setKey, hk, ih h]

theorem valid_eq_keyError (st : LooperState) (env : Env) (c : Id)
    (hid : lookup st.message_ids c = none) :
    valid st env c = ⟨some Exn.keyError, false, st, []⟩ := by
  unfold valid; rw [hid]

theorem valid_eq_absent (st : LooperState) (env : Env) (c : Id)
    (hid : lookup st.message_ids c = some none) :
    valid st env c = ⟨none, false, st, []⟩ := by
  unfold valid; rw [hid]

theorem valid_eq_get_timeout (st : LooperState) (env : Env) (c mid : Id)
    (hid : lookup st.message_ids c = some (some mid))
    (hget : env.get = HttpOutcome.timeout) :
    valid st env c = ⟨some Exn.timeout, false, st, [Event.getCall c mid]⟩ := by
  unfold valid; rw [hid]; simp [hget]

theorem valid_eq_get_conn (st : LooperState) (env : Env) (c mid : Id)
    (hid : lookup st.message_ids c = some (some mid))
    (hget : env.get = HttpOutcome.connError) :
    valid st env c = ⟨some Exn.connError, false, st, [Event.getCall c mid]⟩ := by
  unfold valid; rw [hid]; simp [hget]

theorem valid_eq_still_latest (st : LooperState) (env : Env) (c mid : Id)
    (g : GetResult)
    (hid : lookup st.message_ids c = some (some mid))
    (hget : env.get = HttpOutcome.ok g)
    (hcond : g.status ≠ 200 ∨ g.messages = []) :
    valid st env c = ⟨none, true, st, [Event.getCall c mid]⟩ := by
  unfold valid; rw [hid]
  rcases hcond with h | h
  · simp [hget, h]
  · simp [hget, h]

theorem valid_eq_del_timeout (st : LooperState) (env : Env) (c mid : Id)
    (g : GetResult)
    (hid : lookup st.message_ids c = some (some mid))
    (hget : env.get = HttpOutcome.ok g)
    (h200 : g.status = 200) (hmsgs : g.messages ≠ [])
    (hdel : env.del = HttpOutcome.timeout) :
    valid st env c = ⟨some Exn.timeout, false, st,
      [Event.getCall c mid, Event.sleepEv, Event.deleteCall c mid]⟩ := by
  unfold valid; rw [hid]; simp [hget, h200, hmsgs, hdel]

theorem valid_eq_del_conn (st : LooperState) (env : Env) (c mid : Id)
    (g : GetResult)
    (hid : lookup st.message_ids c = some (some mid))
    (hget : env.get = HttpOutcome.ok g)
    (h200 : g.status = 200) (hmsgs : g.messages ≠ [])
    (hdel : env.del = HttpOutcome.connError) :
    valid st env c = ⟨some Exn.connError, false, st,
      [Event.getCall c mid, Event.sleepEv, Event.deleteCall c mid]⟩ := by
  unfold valid; rw [hid]; simp [hget, h200, hmsgs, hdel]

theorem valid_eq_del_success (st : LooperState) (env : Env) (c mid : Id)
    (g : GetResult) (d : Nat)
    (hid : lookup st.message_ids c = some (some mid))
    (hget : env.get = HttpOutcome.ok g)
    (h200 : g.status = 200) (hmsgs : g.messages ≠ [])
    (hdel : env.del = HttpOutcome.ok d)
    (hsucc : d = 204 ∨ d = 404) (hsf : env.saveFail = false) :
    valid st env c =
      ⟨none, false, ⟨st.channels, setKey st.message_ids c none⟩,
        [Event.getCall c mid, Event.sleepEv, Event.deleteCall c mid,
         Event.mutate (setKey st.message_ids c none),
         Event.save (setKey st.message_ids c none)]⟩ := by
  unfold valid; rw [hid]
  rcases hsucc with h | h <;> subst h <;> simp [hget, h200, hmsgs, hdel, hsf]

theorem valid_eq_del_success_saveFail (st : LooperState) (env : Env)
    (c mid : Id) (g : GetResult) (d : Nat)
    (hid : lookup st.message_ids c = some (some mid))
    (hget : env.get = HttpOutcome.ok g)
    (h200 : g.status = 200) (hmsgs : g.messages ≠ [])
    (hdel : env.del = HttpOutcome.ok d)
    (hsucc : d = 204 ∨ d = 404) (hsf : env.saveFail = true) :
    valid st env c =
      ⟨some Exn.saveError, false, ⟨st.channels, setKey st.message_ids c none⟩,
        [Event.getCall c mid, Event.sleepEv, Event.deleteCall c mid,
         Event.mutate (setKey st.message_ids c none)]⟩ := by
  unfold valid; rw [hid]
  rcases hsucc with h | h <;> subst h <;> simp [hget, h200, hmsgs, hdel, hsf]

theorem valid_eq_del_fail (st : LooperState) (env : Env) (c mid : Id)
    (g : GetResult) (d : Nat)
    (hid : lookup st.message_ids c = some (some mid))
    (hget : env.get = HttpOutcome.ok g)
    (h200 : g.status = 200) (hmsgs : g.messages ≠ [])
    (hdel : env.del = HttpOutcome.ok d)
    (hsucc : ¬(d = 204 ∨ d = 404)) :
    valid st env c = ⟨none, true, st,
      [Event.getCall c mid, Event.sleepEv, Event.deleteCall c mid]⟩ := by
  unfold valid; rw [hid]; simp [hget, h200, hmsgs, hdel, hsucc]

theorem update_eq_of_valid_err (st : LooperState) (env : Env) (c : Id)
    (e : Exn) (b : Bool) (st' : LooperState) (tr : List Event)
    (hv : valid st env c = ⟨some e, b, st', tr⟩) :
    update st env c = ⟨some e, st', tr⟩ := by
  unfold update; rw [hv]

theorem update_eq_of_valid_true (st : LooperState) (env : Env) (c : Id)
    (st' : LooperState) (tr : List Event)
    (hv : valid st env c = ⟨none, true, st', tr⟩) :
    update st env c = ⟨none, st', tr⟩ := by
  unfold update; rw [hv]

theorem update_eq_no_config (st : LooperState) (env : Env) (c : Id)
    (st' : LooperState) (tr : List Event)
    (hv : valid st env c = ⟨none, false, st', tr⟩)
    (hch : lookup st'.channels c = none) :
    update st env c = ⟨some Exn.keyError, st', tr⟩ := by
  unfold update; rw [hv]; simp [hch]

theorem update_eq_post_timeout (st : LooperState) (env : Env) (c : Id)
    (st' : LooperState) (tr : List Event) (txt : String)
    (hv : valid st env c = ⟨none, false, st', tr⟩)
    (hch : lookup st'.channels c = some txt)
    (hp : env.post = HttpOutcome.timeout) :
    update st env c = ⟨some Exn.timeout, st',
      tr ++ [Event.postCall c txt]⟩ := by
  unfold update; rw [hv]; simp [hch, hp]

theorem update_eq_post_conn (st : LooperState) (env : Env) (c : Id)
    (st' : LooperState) (tr : List Event) (txt : String)
    (hv : valid st env c = ⟨none, false, st', tr⟩)
    (hch : lookup st'.channels c = some txt)
    (hp : env.post = HttpOutcome.connError) :
    update st env c = ⟨some Exn.connError, st',
      tr ++ [Event.postCall c txt]⟩ := by
  unfold update; rw [hv]; simp [hch, hp]

theorem update_eq_post_fail (st : LooperState) (env : Env) (c : Id)
    (st' : LooperState) (tr : List Event) (txt : String) (p : PostResult)
    (hv : valid st env c = ⟨none, false, st', tr⟩)
    (hch : lookup st'.channels c = some txt)
    (hp : env.post = HttpOutcome.ok p) (h200 : p.status ≠ 200) :
    update st env c = ⟨none, st', tr ++ [Event.postCall c txt]⟩ := by
  unfold update; rw [hv]; simp [hch, hp, h200]

theorem update_eq_post_success (st : LooperState) (env : Env) (c : Id)
    (st' : LooperState) (tr : List Event) (txt : String) (p : PostResult)
    (hv : valid st env c = ⟨none, false, st', tr⟩)
    (hch : lookup st'.channels c = some txt)
    (hp : env.post = HttpOutcome.ok p) (h200 : p.status = 200)
    (hsf : env.saveFail = false) :
    update st env c =
      ⟨none, ⟨st'.channels, setKey st'.message_ids c (some p.id)⟩,
        tr ++ [Event.postCall c txt,
          Event.mutate (setKey st'.message_ids c (some p.id)),
          Event.save (setKey st'.message_ids c (some p.id))]⟩ := by
  unfold update; rw [hv]; simp [hch, hp, h200, hsf]

theorem update_eq_post_success_saveFail (st : LooperState) (env : Env)
    (c : Id) (st' : LooperState) (tr : List Event) (txt : String)
    (p : PostResult)
    (hv : valid st env c = ⟨none, false, st', tr⟩)
    (hch : lookup st'.channels c = some txt)
    (hp : env.post = HttpOutcome.ok p) (h200 : p.status = 200)
    (hsf : env.saveFail = true) :
    update st env c =
      ⟨some Exn.saveError, ⟨st'.channels, setKey st'.message_ids c (some p.id)⟩,
        tr ++ [Event.postCall c txt,
          Event.mutate (setKey st'.message_ids c (some p.id))]⟩ := by
  unfold update; rw [hv]; simp [hch, hp, h200, hsf]

theorem try_update_same_st_trace (st : LooperState) (env : Env) (c : Id) :
    (try_update st env c).st = (update st env c).st ∧
    (try_update st env c).trace = (update st env c).trace := by
  unfold try_update
  cases hu : update st env c with
  | mk err st' tr =>
    cases err with
    | none => exact ⟨rfl, rfl⟩
    | some e => cases e <;> exact ⟨rfl, rfl⟩

theorem try_update_err (st : LooperState) (env : Env) (c : Id) :
    (try_update st env c).err =
      match (update st env c).err with
      | some Exn.timeout => none
      | some Exn.connError => none
      | e => e := by
  unfold try_update
  cases hu : update st env c with
  | mk err st' tr =>
    cases err with
    | none => rfl
    | some e => cases e <;> rfl

/-- C1: for a channel whose last-known message id is absent, one call to
`update` issues exactly one POST, no DELETE and no GET; on a 200 response
the returned id is recorded (the id is now non-absent) and the mapping is
saved; on any other status the state is unchanged. -/
theorem C1_create_when_absent (st : LooperState) (env : Env) (c : Id)
    (txt : String) (p : PostResult)
    (hid : lookup st.message_ids c = some none)
    (htxt : lookup st.channels c = some txt)
    (hpost : env.post = HttpOutcome.ok p)
    (hsf : env.saveFail = false) :
    countP isPostCall (update st env c).trace = 1 ∧
    countP isDeleteCall (update st env c).trace = 0 ∧
    countP isGetCall (update st env c).trace = 0 ∧
    (update st env c).err = none ∧
    (p.status = 200 →
      update st env c =
        ⟨none, ⟨st.channels, setKey st.message_ids c (some p.id)⟩,
          [Event.postCall c txt,
           Event.mutate (setKey st.message_ids c (some p.id)),
           Event.save (setKey st.message_ids c (some p.id))]⟩ ∧
      lookup (update st env c).st.message_ids c = some (some p.id)) ∧
    (p.status ≠ 200 →
      update st env c = ⟨none, st, [Event.postCall c txt]⟩) := by
  have hv : valid st env c = ⟨none, false, st, []⟩ := by
    unfold valid; rw [hid]
  by_cases h200 : p.status = 200
  · have hu : update st env c =
        ⟨none, ⟨st.channels, setKey st.message_ids c (some p.id)⟩,
          [Event.postCall c txt,
           Event.mutate (setKey st.message_ids c (some p.id)),
           Event.save (setKey st.message_ids c (some p.id))]⟩ := by
      unfold update
      rw [hv]
      simp [htxt, hpost, h200, hsf]
    rw [hu]
    refine ⟨by simp [countP, isPostCall], by simp [countP, isDeleteCall],
      by simp [countP, isGetCall], rfl, fun _ => ⟨rfl, ?_⟩, fun hne => absurd h200 hne⟩
    exact lookup_setKey_self st.message_ids c (some p.id)
  · have hu : update st env c = ⟨none, st, [Event.postCall c txt]⟩ := by
      unfold update
      rw [hv]
      simp [htxt, hpost, h200]
    rw [hu]
    exact ⟨by simp [countP, isPostCall], by simp [countP, isDeleteCall],
      by simp [countP, isGetCall], rfl, fun h => absurd h h200, fun _ => rfl⟩

/-- C1 witness at a concrete input. -/
theorem C1_create_when_absent_witness :
    let st : LooperState := ⟨[(1, "hello")], [(1, none)]⟩
    let env : Env := ⟨HttpOutcome.ok ⟨200, []⟩, HttpOutcome.ok 204,
      HttpOutcome.ok ⟨200, 42⟩, false⟩
    countP isPostCall (update st env 1).trace = 1 ∧
    countP isDeleteCall (update st env 1).trace = 0 ∧
    countP isGetCall (update st env 1).trace = 0 ∧
    (update st env 1).err = none ∧
    ((200 : Nat) = 200 →
      update st env 1 =
        ⟨none, ⟨st.channels, setKey st.message_ids 1 (some 42)⟩,
          [Event.postCall 1 "hello",
           Event.mutate (setKey st.message_ids 1 (some 42)),
           Event.save (setKey st.message_ids 1 (some 42))]⟩ ∧
      lookup (update st env 1).st.message_ids 1 = some (some 42)) ∧
    ((200 : Nat) ≠ 200 →
      update st env 1 = ⟨none, ⟨[(1, "hello")], [(1, none)]⟩,
        [Event.postCall 1 "hello"]⟩) :=
  C1_create_when_absent ⟨[(1, "hello")], [(1, none)]⟩
    ⟨HttpOutcome.ok ⟨200, []⟩, HttpOutcome.ok 204, HttpOutcome.ok ⟨200, 42⟩, false⟩
    1 "hello" ⟨200, 42⟩ (by decide) (by decide) rfl rfl

/-- C4: for a channel with a present id, when the GET query returns 200
with an empty body, `update` makes exactly one GET call, no POST, no
DELETE, no save, and leaves the state unchanged. -/
theorem C4_noop_when_empty (st : LooperState) (env : Env) (c : Id)
    (mid : Id) (g : GetResult)
    (hid : lookup st.message_ids c = some (some mid))
    (hget : env.get = HttpOutcome.ok g)
    (h200 : g.status = 200)
    (hempty : g.messages = []) :
    update st env c = ⟨none, st, [Event.getCall c mid]⟩ := by
  have hv : valid st env c = ⟨none, true, st, [Event.getCall c mid]⟩ := by
    unfold valid
    rw [hid]
    simp [hget, h200, hempty]
  unfold update
  rw [hv]

/-- C4 witness at a concrete input. -/
theorem C4_noop_when_empty_witness :
    update ⟨[(1, "hello")], [(1, some 5)]⟩
      ⟨HttpOutcome.ok ⟨200, []⟩, HttpOutcome.ok 204, HttpOutcome.ok ⟨200, 42⟩, false⟩ 1 =
      ⟨none, ⟨[(1, "hello")], [(1, some 5)]⟩, [Event.getCall 1 5]⟩ :=
  C4_noop_when_empty ⟨[(1, "hello")], [(1, some 5)]⟩
    ⟨HttpOutcome.ok ⟨200, []⟩, HttpOutcome.ok 204, HttpOutcome.ok ⟨200, 42⟩, false⟩
    1 5 ⟨200, []⟩ (by decide) rfl rfl rfl

/-- C7: for a channel with a present id, when the GET query returns any
status other than 200, the cycle for that channel stops: one GET call only,
no DELETE, no POST, state unchanged. -/
theorem C7_abort_on_non200_get (st : LooperState) (env : Env) (c : Id)
    (mid : Id) (g : GetResult)
    (hid : lookup st.message_ids c = some (some mid))
    (hget : env.get = HttpOutcome.ok g)
    (hstatus : g.status ≠ 200) :
    update st env c = ⟨none, st, [Event.getCall c mid]⟩ := by
  have hv : valid st env c = ⟨none, true, st, [Event.getCall c mid]⟩ := by
    unfold valid
    rw [hid]
    simp [hget, hstatus]
  unfold update
  rw [hv]

/-- C7 witness at a concrete input. -/
theorem C7_abort_on_non200_get_witness :
    update ⟨[(1, "hello")], [(1, some 5)]⟩
      ⟨HttpOutcome.ok ⟨500, [9]⟩, HttpOutcome.ok 204, HttpOutcome.ok ⟨200, 42⟩, false⟩ 1 =
      ⟨none, ⟨[(1, "hello")], [(1, some 5)]⟩, [Event.getCall 1 5]⟩ :=
  C7_abort_on_non200_get ⟨[(1, "hello")], [(1, some 5)]⟩
    ⟨HttpOutcome.ok ⟨500, [9]⟩, HttpOutcome.ok 204, HttpOutcome.ok ⟨200, 42⟩, false⟩
    1 5 ⟨500, [9]⟩ (by decide) rfl (by decide)

theorem update_absent_only_by_delete (st : LooperState) (env : Env)
    (c mid : Id)
    (hid : lookup st.message_ids c = some (some mid))
    (h : lookup (update st env c).st.message_ids c = some none) :
    ∃ d, env.del = HttpOutcome.ok d ∧ (d = 204 ∨ d = 404) := by
  cases hg : env.get with
  | timeout =>
    rw [update_eq_of_valid_err st env c _ _ _ _
      (valid_eq_get_timeout st env c mid hid hg)] at h
    simp [hid] at h
  | connError =>
    rw [update_eq_of_valid_err st env c _ _ _ _
      (valid_eq_get_conn st env c mid hid hg)] at h
    simp [hid] at h
  | ok g =>
    by_cases hcond : g.status ≠ 200 ∨ g.messages = []
    · rw [update_eq_of_valid_true st env c _ _
        (valid_eq_still_latest st env c mid g hid hg hcond)] at h
      simp [hid] at h
    · push_neg at hcond
      obtain ⟨h200, hmsgs⟩ := hcond
      cases hd : env.del with
      | timeout =>
        rw [update_eq_of_valid_err st env c _ _ _ _
          (valid_eq_del_timeout st env c mid g hid hg h200 hmsgs hd)] at h
        simp [hid] at h
      | connError =>
        rw [update_eq_of_valid_err st env c _ _ _ _
          (valid_eq_del_conn st env c mid g hid hg h200 hmsgs hd)] at h
        simp [hid] at h
      | ok d =>
        by_cases hsucc : d = 204 ∨ d = 404
        · exact ⟨d, rfl, hsucc⟩
        · rw [update_eq_of_valid_true st env c _ _
            (valid_eq_del_fail st env c mid g d hid hg h200 hmsgs hd hsucc)] at h
          simp [hid] at h

/-- C3: delete statuses 204 and 404 are treated identically; either one
clears the id (now absent) and saves the mapping; any other delete status
leaves the state unchanged and suppresses the repost for the cycle; and the
id can become absent in no way other than such a 204/404 delete response. -/
theorem C3_delete_status_handling (st : LooperState) (env : Env) (c mid : Id)
    (g : GetResult)
    (hid : lookup st.message_ids c = some (some mid))
    (hget : env.get = HttpOutcome.ok g)
    (h200 : g.status = 200) (hmsgs : g.messages ≠ []) :
    valid st { env with del := HttpOutcome.ok 204 } c =
      valid st { env with del := HttpOutcome.ok 404 } c ∧
    (∀ d : Nat, env.del = HttpOutcome.ok d →
      ((d = 204 ∨ d = 404) → env.saveFail = false →
        valid st env c =
          ⟨none, false, ⟨st.channels, setKey st.message_ids c none⟩,
            [Event.getCall c mid, Event.sleepEv, Event.deleteCall c mid,
             Event.mutate (setKey st.message_ids c none),
             Event.save (setKey st.message_ids c none)]⟩ ∧
        lookup (valid st env c).st.message_ids c = some none) ∧
      (¬(d = 204 ∨ d = 404) →
        valid st env c = ⟨none, true, st,
          [Event.getCall c mid, Event.sleepEv, Event.deleteCall c mid]⟩ ∧
        update st env c = ⟨none, st,
          [Event.getCall c mid, Event.sleepEv, Event.deleteCall c mid]⟩ ∧
        countP isPostCall (update st env c).trace = 0)) ∧
    (∀ env2 : Env, lookup (update st env2 c).st.message_ids c = some none →
      ∃ d, env2.del = HttpOutcome.ok d ∧ (d = 204 ∨ d = 404)) := by
  refine ⟨?_, ?_, fun env2 h => update_absent_only_by_delete st env2 c mid hid h⟩
  · cases hsf : env.saveFail
    · rw [valid_eq_del_success st ⟨env.get, HttpOutcome.ok 204, env.post, false⟩
          c mid g 204 hid hget h200 hmsgs rfl (Or.inl rfl) rfl,
        valid_eq_del_success st ⟨env.get, HttpOutcome.ok 404, env.post, false⟩
          c mid g 404 hid hget h200 hmsgs rfl (Or.inr rfl) rfl]
    · rw [valid_eq_del_success_saveFail st
          ⟨env.get, HttpOutcome.ok 204, env.post, true⟩
          c mid g 204 hid hget h200 hmsgs rfl (Or.inl rfl) rfl,
        valid_eq_del_success_saveFail st
          ⟨env.get, HttpOutcome.ok 404, env.post, true⟩
          c mid g 404 hid hget h200 hmsgs rfl (Or.inr rfl) rfl]
  · intro d hdel
    constructor
    · intro hsucc hsf
      have hv := valid_eq_del_success st env c mid g d hid hget h200 hmsgs
        hdel hsucc hsf
      refine ⟨hv, ?_⟩
      rw [hv]
      exact lookup_setKey_self st.message_ids c none
    · intro hfail
      have hv := valid_eq_del_fail st env c mid g d hid hget h200 hmsgs
        hdel hfail
      have hu := update_eq_of_valid_true st env c _ _ hv
      exact ⟨hv, hu, by rw [hu]; simp [countP, isPostCall]⟩

/-- C3 witness at a concrete input: a 204 delete clears the id and saves. -/
theorem C3_delete_status_handling_witness :
    (valid ⟨[(1, "s")], [(1, some 5)]⟩
        ⟨HttpOutcome.ok ⟨200, [9]⟩, HttpOutcome.ok 204, HttpOutcome.ok ⟨200, 42⟩, false⟩ 1 =
      ⟨none, false,
        ⟨(⟨[(1, "s")], [(1, some 5)]⟩ : LooperState).channels,
          setKey [(1, some 5)] 1 none⟩,
        [Event.getCall 1 5, Event.sleepEv, Event.deleteCall 1 5,
         Event.mutate (setKey [(1, some 5)] 1 none),
         Event.save (setKey [(1, some 5)] 1 none)]⟩) ∧
    lookup (valid ⟨[(1, "s")], [(1, some 5)]⟩
        ⟨HttpOutcome.ok ⟨200, [9]⟩, HttpOutcome.ok 204, HttpOutcome.ok ⟨200, 42⟩, false⟩
        1).st.message_ids 1 = some none :=
  ((C3_delete_status_handling ⟨[(1, "s")], [(1, some 5)]⟩
      ⟨HttpOutcome.ok ⟨200, [9]⟩, HttpOutcome.ok 204, HttpOutcome.ok ⟨200, 42⟩, false⟩
      1 5 ⟨200, [9]⟩ (by decide) rfl rfl (by decide)).2.1 204 rfl).1
    (Or.inl rfl) rfl

/-- C2 counterexample: with a stale sticky (GET 200 non-empty) but a delete
response of 500, `update` issues the one delete call and then no create
call at all, refuting "exactly one delete call followed by exactly one
create call". -/
theorem C2_counterexample :
    countP isDeleteCall (update ⟨[(1, "s")], [(1, some 5)]⟩
      ⟨HttpOutcome.ok ⟨200, [9]⟩, HttpOutcome.ok 500, HttpOutcome.ok ⟨200, 42⟩, false⟩
      1).trace = 1 ∧
    countP isPostCall (update ⟨[(1, "s")], [(1, some 5)]⟩
      ⟨HttpOutcome.ok ⟨200, [9]⟩, HttpOutcome.ok 500, HttpOutcome.ok ⟨200, 42⟩, false⟩
      1).trace = 0 := by
  decide

/-- C2 (amended): with a stale sticky, `update` issues exactly one delete
call; only when the delete returns 204 or 404 does exactly one create call
follow it, and on a 200 create the recorded id is the id from the create
response (differing from the original whenever the response id does); on
any other delete status no create call is made and the state is
unchanged. -/
theorem C2_stale_repost (st : LooperState) (env : Env) (c mid : Id)
    (g : GetResult) (d : Nat) (txt : String)
    (hid : lookup st.message_ids c = some (some mid))
    (htxt : lookup st.channels c = some txt)
    (hget : env.get = HttpOutcome.ok g)
    (h200 : g.status = 200) (hmsgs : g.messages ≠ [])
    (hdel : env.del = HttpOutcome.ok d)
    (hsf : env.saveFail = false) :
    countP isDeleteCall (update st env c).trace = 1 ∧
    ((d = 204 ∨ d = 404) → ∀ p : PostResult, env.post = HttpOutcome.ok p →
      countP isPostCall (update st env c).trace = 1 ∧
      (p.status = 200 →
        lookup (update st env c).st.message_ids c = some (some p.id) ∧
        (p.id ≠ mid →
          lookup (update st env c).st.message_ids c ≠ some (some mid)) ∧
        update st env c =
          ⟨none, ⟨st.channels,
              setKey (setKey st.message_ids c none) c (some p.id)⟩,
            [Event.getCall c mid, Event.sleepEv, Event.deleteCall c mid,
             Event.mutate (setKey st.message_ids c none),
             Event.save (setKey st.message_ids c none),
             Event.postCall c txt,
             Event.mutate (setKey (setKey st.message_ids c none) c (some p.id)),
             Event.save (setKey (setKey st.message_ids c none) c (some p.id))]⟩)) ∧
    (¬(d = 204 ∨ d = 404) →
      countP isPostCall (update st env c).trace = 0 ∧
      (update st env c).st = st) := by
  by_cases hsucc : d = 204 ∨ d = 404
  · have hv := valid_eq_del_success st env c mid g d hid hget h200 hmsgs
      hdel hsucc hsf
    cases hp : env.post with
    | timeout =>
      have hu := update_eq_post_timeout st env c _ _ txt hv htxt hp
      refine ⟨by rw [hu]; simp [countP, isDeleteCall, isPostCall], ?_,
        fun hc => absurd hsucc hc⟩
      intro _ p hpp
      cases hpp
    | connError =>
      have hu := update_eq_post_conn st env c _ _ txt hv htxt hp
      refine ⟨by rw [hu]; simp [countP, isDeleteCall, isPostCall], ?_,
        fun hc => absurd hsucc hc⟩
      intro _ p hpp
      cases hpp
    | ok p =>
      by_cases hps : p.status = 200
      · have hu := update_eq_post_success st env c _ _ txt p hv htxt hp hps hsf
        refine ⟨by rw [hu]; simp [countP, isDeleteCall, isPostCall],
          ?_, fun hc => absurd hsucc hc⟩
        intro _ p' hpp
        have hpe : p = p' := HttpOutcome.ok.inj hpp
        subst hpe
        refine ⟨by rw [hu]; simp [countP, isPostCall, isDeleteCall], fun _ => ?_⟩
        have hlook : lookup (update st env c).st.message_ids c =
            some (some p.id) := by
          rw [hu]
          exact lookup_setKey_self _ c (some p.id)
        refine ⟨hlook, fun hne hcontra => hne ?_, hu⟩
        rw [hlook] at hcontra
        simpa using hcontra
      · have hu := update_eq_post_fail st env c _ _ txt p hv htxt hp hps
        refine ⟨by rw [hu]; simp [countP, isDeleteCall, isPostCall],
          ?_, fun hc => absurd hsucc hc⟩
        intro _ p' hpp
        have hpe : p = p' := HttpOutcome.ok.inj hpp
        subst hpe
        exact ⟨by rw [hu]; simp [countP, isPostCall, isDeleteCall],
          fun hp200 => absurd hp200 hps⟩
  · have hv := valid_eq_del_fail st env c mid g d hid hget h200 hmsgs
      hdel hsucc
    have hu := update_eq_of_valid_true st env c _ _ hv
    exact ⟨by rw [hu]; simp [countP, isDeleteCall, isPostCall],
      fun hc => absurd hc hsucc,
      fun _ => ⟨by rw [hu]; simp [countP, isPostCall, isDeleteCall],
        by rw [hu]⟩⟩

/-- C2 witness at a concrete input: 404 delete then 200 create with a new
id. -/
theorem C2_stale_repost_witness :
    countP isDeleteCall (update ⟨[(1, "s")], [(1, some 5)]⟩
      ⟨HttpOutcome.ok ⟨200, [9]⟩, HttpOutcome.ok 404, HttpOutcome.ok ⟨200, 42⟩, false⟩
      1).trace = 1 ∧
    countP isPostCall (update ⟨[(1, "s")], [(1, some 5)]⟩
      ⟨HttpOutcome.ok ⟨200, [9]⟩, HttpOutcome.ok 404, HttpOutcome.ok ⟨200, 42⟩, false⟩
      1).trace = 1 ∧
    lookup (update ⟨[(1, "s")], [(1, some 5)]⟩
      ⟨HttpOutcome.ok ⟨200, [9]⟩, HttpOutcome.ok 404, HttpOutcome.ok ⟨200, 42⟩, false⟩
      1).st.message_ids 1 = some (some 42) := by
  have h := C2_stale_repost ⟨[(1, "s")], [(1, some 5)]⟩
    ⟨HttpOutcome.ok ⟨200, [9]⟩, HttpOutcome.ok 404, HttpOutcome.ok ⟨200, 42⟩, false⟩
    1 5 ⟨200, [9]⟩ 404 "s" rfl rfl rfl rfl (by decide) rfl rfl
  have h2 := h.2.1 (Or.inr rfl) ⟨200, 42⟩ rfl
  exact ⟨h.1, h2.1, (h2.2 rfl).1⟩

/-- C5 counterexample: with a present (readable) state file whose mapping
is empty, the configured channel 1 obtains no Channel State at all, and one
cycle of the loop performs no reconciliation for it: the claim that every
configured channel obtains a state and is reconciled fails. -/
theorem C5_counterexample :
    lookup (looperInit [(1, "s")] (some [])).message_ids 1 = none ∧
    (loop (looperInit [(1, "s")] (some []))
      (fun _ => ⟨HttpOutcome.ok ⟨200, []⟩, HttpOutcome.ok 204,
        HttpOutcome.ok ⟨200, 42⟩, false⟩)).trace = [Event.sleepEv] :=
  ⟨rfl, rfl⟩

/-- C5 (amended): at startup, when the state file is present its mapping is
taken verbatim as the set of tracked channels — configured channels missing
from the stored state are not tracked (and so are never reconciled) — and
only when the state file is absent does every configured channel start with
an absent id. -/
theorem C5_init_hydration (channels : List (Id × String)) (stored : IdMap) :
    (looperInit channels (some stored)).message_ids = stored ∧
    (looperInit channels (some stored)).channels = channels ∧
    (looperInit channels none).message_ids =
      channels.map (fun p => (p.1, (none : Option Id))) ∧
    (looperInit channels none).channels = channels :=
  ⟨rfl, rfl, rfl, rfl⟩

theorem runChannels_cons_ok (envs : Id → Env) (st : LooperState) (c : Id)
    (cs : List Id) (h : (try_update st (envs c) c).err = none) :
    runChannels envs st (c :: cs) =
      ⟨(runChannels envs (try_update st (envs c) c).st cs).err,
       (runChannels envs (try_update st (envs c) c).st cs).st,
       (try_update st (envs c) c).trace ++
         (runChannels envs (try_update st (envs c) c).st cs).trace⟩ := by
  cases htu : try_update st (envs c) c with
  | mk e st' tr =>
    rw [htu] at h
    simp only at h
    subst h
    simp only [runChannels]
    rw [htu]

theorem runChannels_cons_err (envs : Id → Env) (st : LooperState) (c : Id)
    (cs : List Id) (e : Exn)
    (h : (try_update st (envs c) c).err = some e) :
    runChannels envs st (c :: cs) =
      ⟨some e, (try_update st (envs c) c).st,
        (try_update st (envs c) c).trace⟩ := by
  cases htu : try_update st (envs c) c with
  | mk e' st' tr =>
    rw [htu] at h
    simp only at h
    subst h
    simp only [runChannels]
    rw [htu]

theorem update_saves_mutations (st : LooperState) (env : Env) (c : Id)
    (hsf : env.saveFail = false) :
    savedImmediately (update st env c).trace = true := by
  cases hml : lookup st.message_ids c with
  | none =>
    rw [update_eq_of_valid_err st env c _ _ _ _ (valid_eq_keyError st env c hml)]
    rfl
  | some o =>
    cases o with
    | none =>
      have hv := valid_eq_absent st env c hml
      cases hch : lookup st.channels c with
      | none =>
        rw [update_eq_no_config st env c _ _ hv hch]
        rfl
      | some txt =>
        cases hp : env.post with
        | timeout =>
          rw [update_eq_post_timeout st env c _ _ txt hv hch hp]
          rfl
        | connError =>
          rw [update_eq_post_conn st env c _ _ txt hv hch hp]
          rfl
        | ok p =>
          by_cases hps : p.status = 200
          · rw [update_eq_post_success st env c _ _ txt p hv hch hp hps hsf]
            simp [savedImmediately]
          · rw [update_eq_post_fail st env c _ _ txt p hv hch hp hps]
            rfl
    | some mid =>
      cases hg : env.get with
      | timeout =>
        rw [update_eq_of_valid_err st env c _ _ _ _
          (valid_eq_get_timeout st env c mid hml hg)]
        rfl
      | connError =>
        rw [update_eq_of_valid_err st env c _ _ _ _
          (valid_eq_get_conn st env c mid hml hg)]
        rfl
      | ok g =>
        by_cases hcond : g.status ≠ 200 ∨ g.messages = []
        · rw [update_eq_of_valid_true st env c _ _
            (valid_eq_still_latest st env c mid g hml hg hcond)]
          rfl
        · push_neg at hcond
          obtain ⟨h200, hmsgs⟩ := hcond
          cases hd : env.del with
          | timeout =>
            rw [update_eq_of_valid_err st env c _ _ _ _
              (valid_eq_del_timeout st env c mid g hml hg h200 hmsgs hd)]
            rfl
          | connError =>
            rw [update_eq_of_valid_err st env c _ _ _ _
              (valid_eq_del_conn st env c mid g hml hg h200 hmsgs hd)]
            rfl
          | ok d =>
            by_cases hsucc : d = 204 ∨ d = 404
            · have hv := valid_eq_del_success st env c mid g d hml hg h200
                hmsgs hd hsucc hsf
              cases hch : lookup st.channels c with
              | none =>
                rw [update_eq_no_config st env c _ _ hv hch]
                simp [savedImmediately]
              | some txt =>
                cases hp : env.post with
                | timeout =>
                  rw [update_eq_post_timeout st env c _ _ txt hv hch hp]
                  simp [savedImmediately]
                | connError =>
                  rw [update_eq_post_conn st env c _ _ txt hv hch hp]
                  simp [savedImmediately]
                | ok p =>
                  by_cases hps : p.status = 200
                  · rw [update_eq_post_success st env c _ _ txt p hv hch hp
                      hps hsf]
                    simp [savedImmediately]
                  · rw [update_eq_post_fail st env c _ _ txt p hv hch hp hps]
                    simp [savedImmediately]
            · rw [update_eq_of_valid_true st env c _ _
                (valid_eq_del_fail st env c mid g d hml hg h200 hmsgs hd hsucc)]
              rfl

/-- C6 counterexample: a timeout on the POST after a successful delete is
caught (no exception escapes), yet the channel's stored state is changed
for the cycle (the id was cleared by the delete), refuting the claim that
the state is unchanged whenever an HTTP call raises. -/
theorem C6_counterexample :
    (try_update ⟨[(1, "s")], [(1, some 5)]⟩
      ⟨HttpOutcome.ok ⟨200, [9]⟩, HttpOutcome.ok 204, HttpOutcome.timeout, false⟩
      1).err = none ∧
    (try_update ⟨[(1, "s")], [(1, some 5)]⟩
      ⟨HttpOutcome.ok ⟨200, [9]⟩, HttpOutcome.ok 204, HttpOutcome.timeout, false⟩
      1).st ≠ ⟨[(1, "s")], [(1, some 5)]⟩ := by
  decide

/-- C6 (amended): when an HTTP call raises a timeout or connection error
during one channel's reconciliation, `try_update` catches it (no exception
escapes), keeps whatever state and trace `update` produced, every mutation
made before the failing call had already been persisted, and the remaining
channels of the cycle are still processed. -/
theorem C6_transient_isolated (st : LooperState) (env : Env) (c : Id)
    (h : (update st env c).err = some Exn.timeout ∨
      (update st env c).err = some Exn.connError) :
    (try_update st env c).err = none ∧
    (try_update st env c).st = (update st env c).st ∧
    (try_update st env c).trace = (update st env c).trace ∧
    (env.saveFail = false → savedImmediately (update st env c).trace = true) ∧
    (∀ envs : Id → Env, ∀ cs : List Id, envs c = env →
      runChannels envs st (c :: cs) =
        ⟨(runChannels envs (try_update st env c).st cs).err,
         (runChannels envs (try_update st env c).st cs).st,
         (try_update st env c).trace ++
           (runChannels envs (try_update st env c).st cs).trace⟩) := by
  have herr : (try_update st env c).err = none := by
    rw [try_update_err]
    rcases h with h | h <;> rw [h]
  have hst := try_update_same_st_trace st env c
  refine ⟨herr, hst.1, hst.2,
    fun hsf => update_saves_mutations st env c hsf, ?_⟩
  intro envs cs henv
  have h2 := runChannels_cons_ok envs st c cs (by rw [henv]; exact herr)
  rw [henv] at h2
  exact h2

/-- C6 witness at a concrete input: a POST timeout from the NoSticky state
is caught and the mutation-save pairing of the (here mutation-free) trace
holds. -/
theorem C6_transient_isolated_witness :
    (try_update ⟨[(1, "s")], [(1, none)]⟩
      ⟨HttpOutcome.ok ⟨200, []⟩, HttpOutcome.ok 204, HttpOutcome.timeout, false⟩
      1).err = none ∧
    savedImmediately (update ⟨[(1, "s")], [(1, none)]⟩
      ⟨HttpOutcome.ok ⟨200, []⟩, HttpOutcome.ok 204, HttpOutcome.timeout, false⟩
      1).trace = true := by
  have h := C6_transient_isolated ⟨[(1, "s")], [(1, none)]⟩
    ⟨HttpOutcome.ok ⟨200, []⟩, HttpOutcome.ok 204, HttpOutcome.timeout, false⟩
    1 (Or.inl (by decide))
  exact ⟨h.1, h.2.2.2.1 rfl⟩

/-- C8: under working persistence every in-place mutation of the mapping is
immediately followed by a save of exactly the mutated mapping; when the
save raises, any mutation makes `update` end in the save error; that error
is not caught by `try_update`; and it aborts the channel iteration (and so
the process) at once. -/
theorem C8_mutation_persistence (st : LooperState) (env : Env) (c : Id) :
    (env.saveFail = false → savedImmediately (update st env c).trace = true) ∧
    ((update st env c).err = some Exn.saveError →
      (try_update st env c).err = some Exn.saveError) ∧
    (env.saveFail = true →
      ∀ m : IdMap, Event.mutate m ∈ (update st env c).trace →
        (update st env c).err = some Exn.saveError) ∧
    (∀ envs : Id → Env, ∀ cs : List Id, envs c = env →
      (try_update st env c).err = some Exn.saveError →
      runChannels envs st (c :: cs) =
        ⟨some Exn.saveError, (try_update st env c).st,
          (try_update st env c).trace⟩) := by
  refine ⟨fun hsf => update_saves_mutations st env c hsf, ?_, ?_, ?_⟩
  · intro h
    rw [try_update_err, h]
  · intro hsf m hm
    cases hml : lookup st.message_ids c with
    | none =>
      rw [update_eq_of_valid_err st env c _ _ _ _
        (valid_eq_keyError st env c hml)] at hm
      simp at hm
    | some o =>
      cases o with
      | none =>
        have hv := valid_eq_absent st env c hml
        cases hch : lookup st.channels c with
        | none =>
          rw [update_eq_no_config st env c _ _ hv hch] at hm
          simp at hm
        | some txt =>
          cases hp : env.post with
          | timeout =>
            rw [update_eq_post_timeout st env c _ _ txt hv hch hp] at hm
            simp at hm
          | connError =>
            rw [update_eq_post_conn st env c _ _ txt hv hch hp] at hm
            simp at hm
          | ok p =>
            by_cases hps : p.status = 200
            · rw [update_eq_post_success_saveFail st env c _ _ txt p hv hch
                hp hps hsf]
            · rw [update_eq_post_fail st env c _ _ txt p hv hch hp hps] at hm
              simp at hm
      | some mid =>
        cases hg : env.get with
        | timeout =>
          rw [update_eq_of_valid_err st env c _ _ _ _
            (valid_eq_get_timeout st env c mid hml hg)] at hm
          simp at hm
        | connError =>
          rw [update_eq_of_valid_err st env c _ _ _ _
            (valid_eq_get_conn st env c mid hml hg)] at hm
          simp at hm
        | ok g =>
          by_cases hcond : g.status ≠ 200 ∨ g.messages = []
          · rw [update_eq_of_valid_true st env c _ _
              (valid_eq_still_latest st env c mid g hml hg hcond)] at hm
            simp at hm
          · push_neg at hcond
            obtain ⟨h200, hmsgs⟩ := hcond
            cases hd : env.del with
            | timeout =>
              rw [update_eq_of_valid_err st env c _ _ _ _
                (valid_eq_del_timeout st env c mid g hml hg h200 hmsgs hd)] at hm
              simp at hm
            | connError =>
              rw [update_eq_of_valid_err st env c _ _ _ _
                (valid_eq_del_conn st env c mid g hml hg h200 hmsgs hd)] at hm
              simp at hm
            | ok d =>
              by_cases hsucc : d = 204 ∨ d = 404
              · rw [update_eq_of_valid_err st env c _ _ _ _
                  (valid_eq_del_success_saveFail st env c mid g d hml hg h200
                    hmsgs hd hsucc hsf)]
              · rw [update_eq_of_valid_true st env c _ _
                  (valid_eq_del_fail st env c mid g d hml hg h200 hmsgs hd
                    hsucc)] at hm
                simp at hm
  · intro envs cs henv herr
    have h2 := runChannels_cons_err envs st c cs Exn.saveError
      (by rw [henv]; exact herr)
    rw [henv] at h2
    exact h2

/-- C8 witness at concrete inputs: a mutating cycle with working
persistence pairs each mutation with its save, and with broken persistence
the same cycle ends in the uncaught save error. -/
theorem C8_mutation_persistence_witness :
    savedImmediately (update ⟨[(1, "s")], [(1, some 5)]⟩
      ⟨HttpOutcome.ok ⟨200, [9]⟩, HttpOutcome.ok 204, HttpOutcome.ok ⟨200, 42⟩, false⟩
      1).trace = true ∧
    (try_update ⟨[(1, "s")], [(1, some 5)]⟩
      ⟨HttpOutcome.ok ⟨200, [9]⟩, HttpOutcome.ok 204, HttpOutcome.ok ⟨200, 42⟩, true⟩
      1).err = some Exn.saveError := by
  have h1 := (C8_mutation_persistence ⟨[(1, "s")], [(1, some 5)]⟩
    ⟨HttpOutcome.ok ⟨200, [9]⟩, HttpOutcome.ok 204, HttpOutcome.ok ⟨200, 42⟩, false⟩
    1).1 rfl
  have h2 := (C8_mutation_persistence ⟨[(1, "s")], [(1, some 5)]⟩
    ⟨HttpOutcome.ok ⟨200, [9]⟩, HttpOutcome.ok 204, HttpOutcome.ok ⟨200, 42⟩, true⟩
    1).2.1 (by decide)
  exact ⟨h1, h2⟩

/-- C9: for a channel tracked in `message_ids` but missing from the
configured `channels` mapping, any path that reaches the create step — id
absent, or id present, found stale and successfully deleted — hits the
unguarded sticky-text lookup and raises KeyError, which `try_update` does
not catch and which aborts the channel iteration (terminating the
process). -/
theorem C9_unconfigured_channel_fatal (st : LooperState) (env : Env) (c : Id)
    (hcfg : lookup st.channels c = none) :
    (lookup st.message_ids c = some none →
      update st env c = ⟨some Exn.keyError, st, []⟩ ∧
      (try_update st env c).err = some Exn.keyError) ∧
    (∀ mid g d, lookup st.message_ids c = some (some mid) →
      env.get = HttpOutcome.ok g → g.status = 200 → g.messages ≠ [] →
      env.del = HttpOutcome.ok d → (d = 204 ∨ d = 404) →
      env.saveFail = false →
      (update st env c).err = some Exn.keyError ∧
      (try_update st env c).err = some Exn.keyError) ∧
    (∀ envs : Id → Env, ∀ cs : List Id, envs c = env →
      (try_update st env c).err = some Exn.keyError →
      (runChannels envs st (c :: cs)).err = some Exn.keyError) := by
  refine ⟨?_, ?_, ?_⟩
  · intro hid
    have hu := update_eq_no_config st env c _ _ (valid_eq_absent st env c hid)
      hcfg
    refine ⟨hu, ?_⟩
    rw [try_update_err, hu]
  · intro mid g d hid hget h200 hmsgs hdel hsucc hsf
    have hv := valid_eq_del_success st env c mid g d hid hget h200 hmsgs
      hdel hsucc hsf
    have hu := update_eq_no_config st env c _ _ hv hcfg
    refine ⟨by rw [hu], ?_⟩
    rw [try_update_err, hu]
  · intro envs cs henv herr
    have h2 := runChannels_cons_err envs st c cs Exn.keyError
      (by rw [henv]; exact herr)
    rw [h2]

/-- C9 witness at a concrete input: stored state knows channel 1, the
configuration does not; reconciling raises the uncaught KeyError. -/
theorem C9_unconfigured_channel_fatal_witness :
    update ⟨[], [(1, none)]⟩
      ⟨HttpOutcome.ok ⟨200, []⟩, HttpOutcome.ok 204, HttpOutcome.ok ⟨200, 42⟩, false⟩
      1 = ⟨some Exn.keyError, ⟨[], [(1, none)]⟩, []⟩ ∧
    (try_update ⟨[], [(1, none)]⟩
      ⟨HttpOutcome.ok ⟨200, []⟩, HttpOutcome.ok 204, HttpOutcome.ok ⟨200, 42⟩, false⟩
      1).err = some Exn.keyError :=
  (C9_unconfigured_channel_fatal ⟨[], [(1, none)]⟩
    ⟨HttpOutcome.ok ⟨200, []⟩, HttpOutcome.ok 204, HttpOutcome.ok ⟨200, 42⟩, false⟩
    1 rfl).1 rfl

/-- C10: reconciling channel c never changes the id recorded for any other
channel, never adds or removes keys of the mapping, and never changes the
configuration, for both `update` and `try_update`. -/
theorem C10_reconcile_frame (st : LooperState) (env : Env) (c c' : Id)
    (hne : c' ≠ c) :
    lookup (update st env c).st.message_ids c' = lookup st.message_ids c' ∧
    List.map Prod.fst (update st env c).st.message_ids =
      List.map Prod.fst st.message_ids ∧
    (update st env c).st.channels = st.channels ∧
    lookup (try_update st env c).st.message_ids c' =
      lookup st.message_ids c' ∧
    List.map Prod.fst (try_update st env c).st.message_ids =
      List.map Prod.fst st.message_ids ∧
    (try_update st env c).st.channels = st.channels := by
  have key : lookup (update st env c).st.message_ids c' =
      lookup st.message_ids c' ∧
      List.map Prod.fst (update st env c).st.message_ids =
        List.map Prod.fst st.message_ids ∧
      (update st env c).st.channels = st.channels := by
    cases hml : lookup st.message_ids c with
    | none =>
      rw [update_eq_of_valid_err st env c _ _ _ _
        (valid_eq_keyError st env c hml)]
      exact ⟨rfl, rfl, rfl⟩
    | some o =>
      cases o with
      | none =>
        have hv := valid_eq_absent st env c hml
        cases hch : lookup st.channels c with
        | none =>
          rw [update_eq_no_config st env c _ _ hv hch]
          exact ⟨rfl, rfl, rfl⟩
        | some txt =>
          cases hp : env.post with
          | timeout =>
            rw [update_eq_post_timeout st env c _ _ txt hv hch hp]
            exact ⟨rfl, rfl, rfl⟩
          | connError =>
            rw [update_eq_post_conn st env c _ _ txt hv hch hp]
            exact ⟨rfl, rfl, rfl⟩
          | ok p =>
            by_cases hps : p.status = 200
            · cases hsf : env.saveFail
              · rw [update_eq_post_success st env c _ _ txt p hv hch hp hps
                  hsf]
                exact ⟨lookup_setKey_ne st.message_ids c c' (some p.id) hne,
                  map_fst_setKey st.message_ids c (some p.id) none hml, rfl⟩
              · rw [update_eq_post_success_saveFail st env c _ _ txt p hv hch
                  hp hps hsf]
                exact ⟨lookup_setKey_ne st.message_ids c c' (some p.id) hne,
                  map_fst_setKey st.message_ids c (some p.id) none hml, rfl⟩
            · rw [update_eq_post_fail st env c _ _ txt p hv hch hp hps]
              exact ⟨rfl, rfl, rfl⟩
      | some mid =>
        cases hg : env.get with
        | timeout =>
          rw [update_eq_of_valid_err st env c _ _ _ _
            (valid_eq_get_timeout st env c mid hml hg)]
          exact ⟨rfl, rfl, rfl⟩
        | connError =>
          rw [update_eq_of_valid_err st env c _ _ _ _
            (valid_eq_get_conn st env c mid hml hg)]
          exact ⟨rfl, rfl, rfl⟩
        | ok g =>
          by_cases hcond : g.status ≠ 200 ∨ g.messages = []
          · rw [update_eq_of_valid_true st env c _ _
              (valid_eq_still_latest st env c mid g hml hg hcond)]
            exact ⟨rfl, rfl, rfl⟩
          · push_neg at hcond
            obtain ⟨h200, hmsgs⟩ := hcond
            cases hd : env.del with
            | timeout =>
              rw [update_eq_of_valid_err st env c _ _ _ _
                (valid_eq_del_timeout st env c mid g hml hg h200 hmsgs hd)]
              exact ⟨rfl, rfl, rfl⟩
            | connError =>
              rw [update_eq_of_valid_err st env c _ _ _ _
                (valid_eq_del_conn st env c mid g hml hg h200 hmsgs hd)]
              exact ⟨rfl, rfl, rfl⟩
            | ok d =>
              by_cases hsucc : d = 204 ∨ d = 404
              · cases hsf : env.saveFail
                · have hv := valid_eq_del_success st env c mid g d hml hg
                    h200 hmsgs hd hsucc hsf
                  cases hch : lookup st.channels c with
                  | none =>
                    rw [update_eq_no_config st env c _ _ hv hch]
                    exact ⟨lookup_setKey_ne st.message_ids c c' none hne,
                      map_fst_setKey st.message_ids c none (some mid) hml, rfl⟩
                  | some txt =>
                    cases hp : env.post with
                    | timeout =>
                      rw [update_eq_post_timeout st env c _ _ txt hv hch hp]
                      exact ⟨lookup_setKey_ne st.message_ids c c' none hne,
                        map_fst_setKey st.message_ids c none (some mid) hml,
                        rfl⟩
                    | connError =>
                      rw [update_eq_post_conn st env c _ _ txt hv hch hp]
                      exact ⟨lookup_setKey_ne st.message_ids c c' none hne,
                        map_fst_setKey st.message_ids c none (some mid) hml,
                        rfl⟩
                    | ok p =>
                      by_cases hps : p.status = 200
                      · rw [update_eq_post_success st env c _ _ txt p hv hch
                          hp hps hsf]
                        refine ⟨?_, ?_, rfl⟩
                        · rw [lookup_setKey_ne (setKey st.message_ids c none)
                            c c' (some p.id) hne,
                            lookup_setKey_ne st.message_ids c c' none hne]
                        · rw [map_fst_setKey (setKey st.message_ids c none)
                            c (some p.id) none
                            (lookup_setKey_self st.message_ids c none),
                            map_fst_setKey st.message_ids c none (some mid)
                              hml]
                      · rw [update_eq_post_fail st env c _ _ txt p hv hch hp
                          hps]
                        exact ⟨lookup_setKey_ne st.message_ids c c' none hne,
                          map_fst_setKey st.message_ids c none (some mid) hml,
                          rfl⟩
                · rw [update_eq_of_valid_err st env c _ _ _ _
                    (valid_eq_del_success_saveFail st env c mid g d hml hg
                      h200 hmsgs hd hsucc hsf)]
                  exact ⟨lookup_setKey_ne st.message_ids c c' none hne,
                    map_fst_setKey st.message_ids c none (some mid) hml, rfl⟩
              · rw [update_eq_of_valid_true st env c _ _
                  (valid_eq_del_fail st env c mid g d hml hg h200 hmsgs hd
                    hsucc)]
                exact ⟨rfl, rfl, rfl⟩
  have hts := (try_update_same_st_trace st env c).1
  exact ⟨key.1, key.2.1, key.2.2, by rw [hts]; exact key.1,
    by rw [hts]; exact key.2.1, by rw [hts]; exact key.2.2⟩

/-- C10 witness at a concrete input: reconciling channel 1 (a full
delete-and-repost) leaves channel 2's entry, the key set and the
configuration untouched. -/
theorem C10_reconcile_frame_witness :
    lookup (update ⟨[(1, "s"), (2, "t")], [(1, some 5), (2, some 7)]⟩
      ⟨HttpOutcome.ok ⟨200, [9]⟩, HttpOutcome.ok 204, HttpOutcome.ok ⟨200, 42⟩, false⟩
      1).st.message_ids 2 = lookup [(1, some 5), (2, some 7)] 2 ∧
    List.map Prod.fst (update ⟨[(1, "s"), (2, "t")], [(1, some 5), (2, some 7)]⟩
      ⟨HttpOutcome.ok ⟨200, [9]⟩, HttpOutcome.ok 204, HttpOutcome.ok ⟨200, 42⟩, false⟩
      1).st.message_ids = List.map Prod.fst [((1 : Id), some (5 : Id)), (2, some 7)] ∧
    (update ⟨[(1, "s"), (2, "t")], [(1, some 5), (2, some 7)]⟩
      ⟨HttpOutcome.ok ⟨200, [9]⟩, HttpOutcome.ok 204, HttpOutcome.ok ⟨200, 42⟩, false⟩
      1).st.channels = [(1, "s"), (2, "t")] := by
  have h := C10_reconcile_frame ⟨[(1, "s"), (2, "t")], [(1, some 5), (2, some 7)]⟩
    ⟨HttpOutcome.ok ⟨200, [9]⟩, HttpOutcome.ok 204, HttpOutcome.ok ⟨200, 42⟩, false⟩
    1 2 (by decide)
  exact ⟨h.1, h.2.1, h.2.2.1⟩

end Sticky
